import Mathlib

/-!
# Verification of the lindera-sqlite FTS5 tokenizer bridge

Shallow embedding of the tokenizer bridge found in `src/lib.rs`,
`src/extension.rs` and `src/common.rs` of the lindera-sqlite repository,
together with theorems settling the specification claims about it.

Modelling conventions:
* C `int` values (SQLite status codes, byte counts, offsets) are `Int`;
  the Rust `usize as c_int` cast is modelled explicitly by `usizeToCInt`
  (truncation to 32 bits, two's complement).
* Byte buffers are `List Nat` (each entry one byte); Unicode code points
  are also `Nat`.
* A Rust computation that may panic is modelled in the `PanicOr` monad;
  `catch_unwind(..).unwrap_or(SQLITE_INTERNAL)` is the translation of a
  `PanicOr.panicked` result into the `SQLITE_INTERNAL` status.  An entry
  point that the source does *not* wrap in `catch_unwind` keeps the
  `PanicOr` return type: a panic inside it reaches its caller.
* The Lindera analyzer and the host callback are external collaborators:
  they are parameters of the embedded functions (the analyzer maps the
  validated input to a fallible token list, the callback maps the call
  index and the call arguments to a status), both allowed to panic.
-/

/-- `SQLITE_OK` from `src/common.rs`: success status, value 0. -/
def SQLITE_OK : Int := 0

/-- `SQLITE_INTERNAL` from `src/common.rs`: internal error status, value 2. -/
def SQLITE_INTERNAL : Int := 2

/-- `SQLITE_MISUSE` from `src/common.rs`: misuse status, value 21. -/
def SQLITE_MISUSE : Int := 21

/-- `FTS5_API_VERSION` from `src/extension.rs`: expected FTS5 API version, 2. -/
def FTS5_API_VERSION : Int := 2

/-- Outcome of a Rust computation that may panic.  `panicked` is an
unwinding panic in flight; `ok a` is normal completion with value `a`. -/
inductive PanicOr (α : Type) where
  | ok : α → PanicOr α
  | panicked : PanicOr α
deriving DecidableEq, Repr

/-- Rust's `Result` type, as used by the embedded functions. -/
inductive RResult (ε : Type) (α : Type) where
  | ok : α → RResult ε α
  | err : ε → RResult ε α
deriving DecidableEq, Repr

/-- The Rust `usize as c_int` cast: truncate to 32 bits and reinterpret
as a signed 32-bit value. -/
def usizeToCInt (n : Nat) : Int :=
  let m : Nat := n % 2 ^ 32
  if m < 2 ^ 31 then (m : Int) else (m : Int) - 2 ^ 32

/-- A UTF-8 continuation byte (`0x80 ..= 0xBF`). -/
def isCont (b : Nat) : Bool := decide (0x80 ≤ b ∧ b ≤ 0xBF)

/-- Well-formedness of a byte sequence as UTF-8, with the exact ranges
accepted by Rust's `core::str::from_utf8` (no overlong forms, no
surrogates, maximum scalar value `U+10FFFF`). -/
def utf8Valid : List Nat → Bool
  | [] => true
  | b1 :: rest =>
    if b1 ≤ 0x7F then utf8Valid rest
    else if 0xC2 ≤ b1 ∧ b1 ≤ 0xDF then
      match rest with
      | b2 :: rest2 => isCont b2 && utf8Valid rest2
      | [] => false
    else if 0xE0 ≤ b1 ∧ b1 ≤ 0xEF then
      match rest with
      | b2 :: b3 :: rest3 =>
        (if b1 = 0xE0 then decide (0xA0 ≤ b2 ∧ b2 ≤ 0xBF)
         else if b1 = 0xED then decide (0x80 ≤ b2 ∧ b2 ≤ 0x9F)
         else isCont b2) && isCont b3 && utf8Valid rest3
      | _ => false
    else if 0xF0 ≤ b1 ∧ b1 ≤ 0xF4 then
      match rest with
      | b2 :: b3 :: b4 :: rest4 =>
        (if b1 = 0xF0 then decide (0x90 ≤ b2 ∧ b2 ≤ 0xBF)
         else if b1 = 0xF4 then decide (0x80 ≤ b2 ∧ b2 ≤ 0x8F)
         else isCont b2) && isCont b3 && isCont b4 && utf8Valid rest4
      | _ => false
    else false

/-- A token produced by the Lindera analyzer: surface bytes and the byte
span in the original input (`lindera::token::Token`, as consumed by
`lindera_fts5_tokenize_internal`). -/
structure Token where
  surface : List Nat
  byte_start : Nat
  byte_end : Nat
deriving DecidableEq, Repr

/-- One invocation of the host's `xToken` callback, with the argument
values the bridge passes (`x_token(p_ctx, 0, ptr, len, start, end)`). -/
structure CallbackCall where
  flags : Int
  token : List Nat
  tokenLen : Int
  iStart : Int
  iEnd : Int
deriving DecidableEq, Repr

/-- The arguments `lindera_fts5_tokenize_internal` passes to `x_token`
for one token (`src/lib.rs` lines 237–244): flags `0`, the surface bytes,
and the `usize as c_int` casts of the surface length and of the
analyzer-reported byte offsets. -/
def mkCall (t : Token) : CallbackCall :=
  { flags := 0
    token := t.surface
    tokenLen := usizeToCInt t.surface.length
    iStart := usizeToCInt t.byte_start
    iEnd := usizeToCInt t.byte_end }

/-- The callback-argument tuple the specification describes for one
token: flags `0`, the surface bytes, the surface byte length and the
analyzer-reported offsets as (untruncated) integers.  It agrees with
`mkCall` exactly when the lengths and offsets fit in a C `int`. -/
def specCall (t : Token) : CallbackCall :=
  ⟨0, t.surface, (t.surface.length : Int), (t.byte_start : Int), (t.byte_end : Int)⟩

/-- The callback type: the host callback may carry state, so its status is
a function of the invocation index and the arguments; it may panic. -/
def TokenFunction : Type := Nat → CallbackCall → PanicOr Int

/-- The analyzer interface: validated input bytes to a fallible token
list (`Tokenizer::tokenize`); it may panic. -/
def Analyzer : Type := List Nat → PanicOr (RResult Unit (List Token))

/-- The emission loop of `lindera_fts5_tokenize_internal` (`src/lib.rs`
lines 236–248): for each token in order call `x_token`; a non-`SQLITE_OK`
status stops the loop and is returned as the error.  The result pairs the
list of callback invocations actually performed with the loop's outcome;
a panic raised by the callback propagates. -/
def emitTokens (xToken : TokenFunction) (i : Nat) :
    List Token → PanicOr (List CallbackCall × RResult Int Unit)
  | [] => .ok ([], .ok ())
  | t :: rest =>
    let c := mkCall t
    match xToken i c with
    | .panicked => .panicked
    | .ok rc =>
      if rc ≠ SQLITE_OK then .ok ([c], .err rc)
      else
        match emitTokens xToken (i + 1) rest with
        | .panicked => .panicked
        | .ok (tr, res) => .ok (c :: tr, res)

/-- `lindera_fts5_tokenize_internal` (`src/lib.rs` lines 217–256).
`buf` is the memory behind `p_text`; the slice built by the function is
its first `n_text` bytes.  Early return on `n_text <= 0`; invalid UTF-8
is mapped to `Err(SQLITE_OK)`; an analyzer error to
`Err(SQLITE_INTERNAL)`; otherwise the emission loop runs. -/
def lindera_fts5_tokenize_internal (analyzer : Analyzer) (xToken : TokenFunction)
    (buf : List Nat) (nText : Int) :
    PanicOr (List CallbackCall × RResult Int Unit) :=
  if nText ≤ 0 then .ok ([], .ok ())
  else
    let slice := buf.take nText.toNat
    if utf8Valid slice then
      match analyzer slice with
      | .panicked => .panicked
      | .ok (.ok tokens) => emitTokens xToken 0 tokens
      | .ok (.err _) => .ok ([], .err SQLITE_INTERNAL)
    else .ok ([], .err SQLITE_OK)

/-- `lindera_fts5_tokenize` (`src/lib.rs` lines 154–170): the extern
entry point.  It wraps the internal function in
`catch_unwind(..).unwrap_or(SQLITE_INTERNAL)`, so a panic becomes
`SQLITE_INTERNAL` and never reaches the host; `Ok(())` becomes
`SQLITE_OK` and `Err(code)` becomes `code`. -/
def lindera_fts5_tokenize (analyzer : Analyzer) (xToken : TokenFunction)
    (buf : List Nat) (nText : Int) : Int :=
  match lindera_fts5_tokenize_internal analyzer xToken buf nText with
  | .ok (_, .ok _) => SQLITE_OK
  | .ok (_, .err c) => c
  | .panicked => SQLITE_INTERNAL

/-- `fts5_create_lindera_tokenizer` (`src/extension.rs` lines 530–546).
`load_tokenizer` (the external, fallible and possibly panicking analyzer
constructor) is the parameter.  The source has *no* `catch_unwind` here,
so the embedding keeps the `PanicOr` return type: a panic raised by
`load_tokenizer` propagates to the caller across the C ABI.  An `Err`
from `load_tokenizer` yields `SQLITE_INTERNAL`; success writes the boxed
handle and yields `SQLITE_OK`. -/
def fts5_create_lindera_tokenizer (load_tokenizer : PanicOr (RResult Int Unit)) :
    PanicOr Int :=
  match load_tokenizer with
  | .panicked => .panicked
  | .ok (.err _) => .ok SQLITE_INTERNAL
  | .ok (.ok _) => .ok SQLITE_OK

/-- Observable effect of `fts5_delete_lindera_tokenizer` on its handle. -/
inductive DeleteEffect where
  | deallocated
  | undefinedBehavior
  | no_op
deriving DecidableEq, Repr

/-- `Box::from_raw` as called in `fts5_delete_lindera_tokenizer`: its
contract requires a non-null pointer previously produced by
`Box::into_raw`; a null pointer violates it (undefined behavior).
A handle is modelled as its address, `0` being null. -/
def box_from_raw (ptr : Nat) : Option Unit :=
  if ptr = 0 then none else some ()

/-- `fts5_delete_lindera_tokenizer` (`src/extension.rs` lines 564–568):
unconditionally reconstructs the `Box` from the raw handle and drops it.
There is no null check: a null handle hits `Box::from_raw`'s contract
violation, a non-null handle is deallocated. -/
def fts5_delete_lindera_tokenizer (ptr : Nat) : DeleteEffect :=
  match box_from_raw ptr with
  | none => .undefinedBehavior
  | some _ => .deallocated

/-- The FTS5 API value retrieved by `SELECT fts5(?1)` through the bind
side-channel (`struct FTS5API` in `src/extension.rs`): its version field,
and the status its `x_create_tokenizer` returns when invoked (the source
discards that status). -/
structure Fts5ApiVal where
  i_version : Int
  create_tokenizer_rc : Int
deriving DecidableEq, Repr

/-- Host behavior observed by `lindera_fts_tokenizer_internal_init`: the
reported library version, the statuses returned by `prepare`,
`bind_pointer`, `step` and `finalize`, and the FTS5 API pointer value
left in `p_fts5_api` after the step (`none` = still null). -/
structure HostApi where
  libversion_number : Int
  prepare_rc : Int
  bind_rc : Int
  step_rc : Int
  finalize_rc : Int
  fts5_api : Option Fts5ApiVal
deriving DecidableEq, Repr

/-- One call into the host made by the initialization routine, in order. -/
inductive HostCall where
  | prepare
  | bind_pointer
  | step
  | finalize
  | create_tokenizer
deriving DecidableEq, Repr

/-- `lindera_fts_tokenizer_internal_init` (`src/extension.rs` lines
436–502), with the trace of host calls made alongside the result:
null API table → `Err(SQLITE_INTERNAL)`; `libversion_number() < 302000`
→ `Err(SQLITE_MISUSE)`; a failing `prepare` returns its status with no
statement to finalize; a failing `bind_pointer` finalizes the statement
(result of that finalize discarded) and returns the bind status; then
`step` (status intentionally ignored) and `finalize`, whose failure
returns its status; a still-null FTS5 pointer → `Err(SQLITE_INTERNAL)`;
`i_version ≠ FTS5_API_VERSION` → `Err(SQLITE_MISUSE)`; finally
`x_create_tokenizer` is called, its status discarded, and `Ok(())`
returned. -/
def lindera_fts_tokenizer_internal_init (papiNull : Bool) (api : HostApi) :
    List HostCall × RResult Int Unit :=
  if papiNull then ([], .err SQLITE_INTERNAL)
  else if api.libversion_number < 302000 then ([], .err SQLITE_MISUSE)
  else if api.prepare_rc ≠ SQLITE_OK then
    ([HostCall.prepare], .err api.prepare_rc)
  else if api.bind_rc ≠ SQLITE_OK then
    ([HostCall.prepare, HostCall.bind_pointer, HostCall.finalize], .err api.bind_rc)
  else if api.finalize_rc ≠ SQLITE_OK then
    ([HostCall.prepare, HostCall.bind_pointer, HostCall.step, HostCall.finalize],
      .err api.finalize_rc)
  else
    match api.fts5_api with
    | none =>
      ([HostCall.prepare, HostCall.bind_pointer, HostCall.step, HostCall.finalize],
        .err SQLITE_INTERNAL)
    | some f =>
      if f.i_version ≠ FTS5_API_VERSION then
        ([HostCall.prepare, HostCall.bind_pointer, HostCall.step, HostCall.finalize],
          .err SQLITE_MISUSE)
      else
        ([HostCall.prepare, HostCall.bind_pointer, HostCall.step, HostCall.finalize,
          HostCall.create_tokenizer], .ok ())

/-- `lindera_fts5_tokenizer_init` (`src/extension.rs` lines 399–410): the
extern entry point, mapping the internal result to a status
(`Ok(_) => SQLITE_OK`, `Err(code) => code`) inside a `catch_unwind`
boundary. -/
def lindera_fts5_tokenizer_init (papiNull : Bool) (api : HostApi) : Int :=
  match (lindera_fts_tokenizer_internal_init papiNull api).2 with
  | .ok _ => SQLITE_OK
  | .err c => c

/-- Modelled from the spec: the Normalizer of §4.4 is not present under
`src/` (the emission loop in `src/lib.rs` passes `token.surface` through
unchanged; the normalization pass lives outside the given sources).
Step (a), canonical Unicode decomposition, per code point; the table is
restricted to the code points exercised by the claims: `U+00E9` (é) and
`U+00C9` (É) decompose to the base letter followed by `U+0301` (combining
acute accent), every other listed code point is its own decomposition. -/
def canonicalDecompose (c : Nat) : List Nat :=
  if c = 0xE9 then [0x65, 0x301]
  else if c = 0xC9 then [0x45, 0x301]
  else [c]

/-- Modelled from the spec: step (b) of §4.4 — membership in the Unicode
combining-diacritical-marks block `U+0300 ..= U+036F`, whose code points
are dropped after decomposition. -/
def isCombiningDiacriticalMark (c : Nat) : Bool :=
  decide (0x300 ≤ c ∧ c ≤ 0x36F)

/-- Modelled from the spec: step (c) of §4.4 — casefolding; the ASCII
fast path lowercases `A ..= Z` directly, and for the (all-ASCII)
code points exercised here full Unicode lowercasing agrees with it. -/
def casefoldCp (c : Nat) : Nat :=
  if 0x41 ≤ c ∧ c ≤ 0x5A then c + 0x20 else c

/-- Modelled from the spec: the Normalizer of §4.4 on a surface given as
a list of Unicode code points — canonical decomposition, then removal of
combining diacritical marks, then casefolding. -/
def normalizeSurface (s : List Nat) : List Nat :=
  (((s.map canonicalDecompose).flatten).filter
    (fun c => ! isCombiningDiacriticalMark c)).map casefoldCp

/-- A token at the code-point level, for the normalization claim: the
analyzer-reported surface (code points) and byte span. -/
structure NToken where
  surface : List Nat
  byte_start : Nat
  byte_end : Nat
deriving DecidableEq, Repr

/-- Modelled from the spec: the normalizing emission step of §4.4 —
before the callback, the surface is replaced by its normalized form
while the emitted `byte_start`/`byte_end` stay exactly the span the
analyzer reported for the original surface in the original input. -/
def normalizedEmission (t : NToken) : List Nat × Nat × Nat :=
  (normalizeSurface t.surface, t.byte_start, t.byte_end)

/-! ## Helper lemmas -/

theorem usizeToCInt_of_lt (n : Nat) (h : n < 2 ^ 31) : usizeToCInt n = (n : Int) := by
  have h32 : n < 2 ^ 32 := by omega
  simp only [usizeToCInt]
  rw [Nat.mod_eq_of_lt h32, if_pos h]

/-! ## Claim theorems -/

/-- C1: the claim says every host-reachable entry point is wrapped in a
panic boundary converting panics into `SQLITE_INTERNAL`.  The code
contradicts it (and its own module documentation, which claims all public
functions use panic catching, and the unused `ffi_panic_boundary` helper
in `src/common.rs`): `fts5_create_lindera_tokenizer` has no
`catch_unwind`, so a panic raised by `load_tokenizer` propagates out of
the entry point instead of becoming `SQLITE_INTERNAL`. -/
theorem create_panic_escapes_boundary :
    fts5_create_lindera_tokenizer PanicOr.panicked = PanicOr.panicked ∧
    fts5_create_lindera_tokenizer PanicOr.panicked ≠ PanicOr.ok SQLITE_INTERNAL := by
  exact ⟨rfl, by decide⟩

/-- C2 counterexample: calling `fts5_delete_lindera_tokenizer` with a
null handle is not a no-op — the unconditional `Box::from_raw` violates
its contract on null (undefined behavior), refuting the claim at the
concrete input `null`. -/
theorem delete_null_not_noop :
    fts5_delete_lindera_tokenizer 0 = DeleteEffect.undefinedBehavior ∧
    fts5_delete_lindera_tokenizer 0 ≠ DeleteEffect.no_op := by
  decide

/-- C2 amended: `fts5_delete_lindera_tokenizer` reconstructs and drops
the `Box` unconditionally — a non-null handle is deallocated exactly
once, while a null handle is a `Box::from_raw` contract violation
(undefined behavior), not a guarded no-op. -/
theorem delete_unconditionally_takes_ownership (ptr : Nat) :
    fts5_delete_lindera_tokenizer ptr =
      if ptr = 0 then DeleteEffect.undefinedBehavior else DeleteEffect.deallocated := by
  by_cases h : ptr = 0 <;>
    simp [fts5_delete_lindera_tokenizer, box_from_raw, h]

/-- C7: tokenizing an empty (or non-positive-length) input buffer
returns `SQLITE_OK` with zero callback invocations; the conclusion holds
for *every* analyzer — including one that panics on any input — so the
analyzer is never consulted. -/
theorem empty_input_noop (analyzer : Analyzer) (xToken : TokenFunction)
    (buf : List Nat) (nText : Int) (h : nText ≤ 0) :
    lindera_fts5_tokenize_internal analyzer xToken buf nText = .ok ([], .ok ()) ∧
    lindera_fts5_tokenize analyzer xToken buf nText = SQLITE_OK := by
  have h1 : lindera_fts5_tokenize_internal analyzer xToken buf nText = .ok ([], .ok ()) := by
    simp [lindera_fts5_tokenize_internal, h]
  exact ⟨h1, by simp [lindera_fts5_tokenize, h1]⟩

/-- C7 witness: the empty buffer, with an analyzer and a callback that
panic on any use — the bridge still succeeds with zero callbacks. -/
theorem empty_input_noop_witness :
    (0 : Int) ≤ 0 ∧
    lindera_fts5_tokenize_internal (fun _ => .panicked) (fun _ _ => .panicked) [] 0 =
      .ok ([], .ok ()) ∧
    lindera_fts5_tokenize (fun _ => .panicked) (fun _ _ => .panicked) [] 0 = SQLITE_OK :=
  ⟨le_refl 0,
    (empty_input_noop (fun _ => .panicked) (fun _ _ => .panicked) [] 0 (le_refl 0)).1,
    (empty_input_noop (fun _ => .panicked) (fun _ _ => .panicked) [] 0 (le_refl 0)).2⟩

/-- C4: a non-empty input whose first `n_text` bytes are not well-formed
UTF-8 makes the bridge return `SQLITE_OK` with zero callback invocations
(`from_utf8` errors are mapped to `Err(SQLITE_OK)` and the entry point
returns that code), for every analyzer and callback. -/
theorem malformed_utf8_success_zero_tokens (analyzer : Analyzer) (xToken : TokenFunction)
    (buf : List Nat) (nText : Int) (hpos : 0 < nText)
    (hbad : utf8Valid (buf.take nText.toNat) = false) :
    lindera_fts5_tokenize_internal analyzer xToken buf nText = .ok ([], .err SQLITE_OK) ∧
    lindera_fts5_tokenize analyzer xToken buf nText = SQLITE_OK := by
  have hne : ¬ nText ≤ 0 := by omega
  have h1 : lindera_fts5_tokenize_internal analyzer xToken buf nText =
      .ok ([], .err SQLITE_OK) := by
    simp [lindera_fts5_tokenize_internal, hne, hbad]
  exact ⟨h1, by simp [lindera_fts5_tokenize, h1]⟩

/-- C4 witness: the malformed byte sequence `0xC3 0x28` from the spec
(and from the repository's own `it_ignores_invalid_utf8` test), with a
panicking analyzer and callback. -/
theorem malformed_utf8_success_zero_tokens_witness :
    (0 : Int) < 2 ∧
    utf8Valid (([0xC3, 0x28] : List Nat).take (2 : Int).toNat) = false ∧
    lindera_fts5_tokenize_internal (fun _ => .panicked) (fun _ _ => .panicked)
      [0xC3, 0x28] 2 = .ok ([], .err SQLITE_OK) ∧
    lindera_fts5_tokenize (fun _ => .panicked) (fun _ _ => .panicked) [0xC3, 0x28] 2 =
      SQLITE_OK :=
  ⟨by decide, by decide,
    (malformed_utf8_success_zero_tokens (fun _ => .panicked) (fun _ _ => .panicked)
      [0xC3, 0x28] 2 (by decide) (by decide)).1,
    (malformed_utf8_success_zero_tokens (fun _ => .panicked) (fun _ _ => .panicked)
      [0xC3, 0x28] 2 (by decide) (by decide)).2⟩

/-- C9: a token whose analyzer-reported surface is `"Café"` (code points
`U+0043 U+0061 U+0066 U+00E9`, the last one precomposed) is emitted with
surface `"cafe"` — canonical decomposition, removal of the combining
acute accent, casefolding — while the emitted `byte_start`/`byte_end`
are exactly the analyzer-reported span in the original input. -/
theorem normalization_cafe (t : NToken)
    (h : t.surface = [0x43, 0x61, 0x66, 0xE9]) :
    normalizedEmission t = ([0x63, 0x61, 0x66, 0x65], t.byte_start, t.byte_end) := by
  have hn : normalizeSurface [0x43, 0x61, 0x66, 0xE9] = [0x63, 0x61, 0x66, 0x65] := by
    decide
  simp [normalizedEmission, h, hn]

/-- C9 witness: the `"Café"` token with the concrete analyzer-reported
span `[10, 15)`; the normalized surface is `"cafe"` and the span is
emitted unchanged. -/
theorem normalization_cafe_witness :
    (⟨[0x43, 0x61, 0x66, 0xE9], 10, 15⟩ : NToken).surface = [0x43, 0x61, 0x66, 0xE9] ∧
    normalizedEmission ⟨[0x43, 0x61, 0x66, 0xE9], 10, 15⟩ =
      ([0x63, 0x61, 0x66, 0x65], 10, 15) :=
  ⟨rfl, normalization_cafe ⟨[0x43, 0x61, 0x66, 0xE9], 10, 15⟩ rfl⟩

/-! ## Branch equations for the initialization routine -/

theorem init_eq_low_version (api : HostApi)
    (hlt : api.libversion_number < 302000) :
    lindera_fts_tokenizer_internal_init false api = ([], .err SQLITE_MISUSE) := by
  simp [lindera_fts_tokenizer_internal_init, hlt]

theorem init_eq_prepare_fail (api : HostApi)
    (hv : ¬ api.libversion_number < 302000) (hp : api.prepare_rc ≠ SQLITE_OK) :
    lindera_fts_tokenizer_internal_init false api =
      ([HostCall.prepare], .err api.prepare_rc) := by
  simp [lindera_fts_tokenizer_internal_init, hv, hp]

theorem init_eq_bind_fail (api : HostApi)
    (hv : ¬ api.libversion_number < 302000) (hp : api.prepare_rc = SQLITE_OK)
    (hb : api.bind_rc ≠ SQLITE_OK) :
    lindera_fts_tokenizer_internal_init false api =
      ([HostCall.prepare, HostCall.bind_pointer, HostCall.finalize], .err api.bind_rc) := by
  simp [lindera_fts_tokenizer_internal_init, hv, hp, hb]

theorem init_eq_finalize_fail (api : HostApi)
    (hv : ¬ api.libversion_number < 302000) (hp : api.prepare_rc = SQLITE_OK)
    (hb : api.bind_rc = SQLITE_OK) (hf : api.finalize_rc ≠ SQLITE_OK) :
    lindera_fts_tokenizer_internal_init false api =
      ([HostCall.prepare, HostCall.bind_pointer, HostCall.step, HostCall.finalize],
        .err api.finalize_rc) := by
  simp [lindera_fts_tokenizer_internal_init, hv, hp, hb, hf]

theorem init_eq_null_api (api : HostApi)
    (hv : ¬ api.libversion_number < 302000) (hp : api.prepare_rc = SQLITE_OK)
    (hb : api.bind_rc = SQLITE_OK) (hf : api.finalize_rc = SQLITE_OK)
    (hfa : api.fts5_api = none) :
    lindera_fts_tokenizer_internal_init false api =
      ([HostCall.prepare, HostCall.bind_pointer, HostCall.step, HostCall.finalize],
        .err SQLITE_INTERNAL) := by
  simp [lindera_fts_tokenizer_internal_init, hv, hp, hb, hf, hfa]

theorem init_eq_version_bad (api : HostApi) (f : Fts5ApiVal)
    (hv : ¬ api.libversion_number < 302000) (hp : api.prepare_rc = SQLITE_OK)
    (hb : api.bind_rc = SQLITE_OK) (hf : api.finalize_rc = SQLITE_OK)
    (hfa : api.fts5_api = some f) (hvv : f.i_version ≠ FTS5_API_VERSION) :
    lindera_fts_tokenizer_internal_init false api =
      ([HostCall.prepare, HostCall.bind_pointer, HostCall.step, HostCall.finalize],
        .err SQLITE_MISUSE) := by
  simp [lindera_fts_tokenizer_internal_init, hv, hp, hb, hf, hfa, hvv]

theorem init_eq_success (api : HostApi) (f : Fts5ApiVal)
    (hv : ¬ api.libversion_number < 302000) (hp : api.prepare_rc = SQLITE_OK)
    (hb : api.bind_rc = SQLITE_OK) (hf : api.finalize_rc = SQLITE_OK)
    (hfa : api.fts5_api = some f) (hvv : f.i_version = FTS5_API_VERSION) :
    lindera_fts_tokenizer_internal_init false api =
      ([HostCall.prepare, HostCall.bind_pointer, HostCall.step, HostCall.finalize,
        HostCall.create_tokenizer], .ok ()) := by
  simp [lindera_fts_tokenizer_internal_init, hv, hp, hb, hf, hfa, hvv]

/-- C5: with a non-null API table, a host version below the `302000`
threshold — or a successfully retrieved FTS5 API whose version field is
not `FTS5_API_VERSION` — makes initialization return `SQLITE_MISUSE`
without ever calling the tokenizer-registration function. -/
theorem version_mismatch_misuse_no_registration (api : HostApi)
    (h : api.libversion_number < 302000 ∨
      (api.prepare_rc = SQLITE_OK ∧ api.bind_rc = SQLITE_OK ∧
        api.finalize_rc = SQLITE_OK ∧
        ∃ f, api.fts5_api = some f ∧ f.i_version ≠ FTS5_API_VERSION)) :
    (lindera_fts_tokenizer_internal_init false api).2 = .err SQLITE_MISUSE ∧
    HostCall.create_tokenizer ∉ (lindera_fts_tokenizer_internal_init false api).1 ∧
    lindera_fts5_tokenizer_init false api = SQLITE_MISUSE := by
  rcases h with hlt | ⟨hp, hb, hf, f, hfa, hvv⟩
  · have heq := init_eq_low_version api hlt
    exact ⟨by rw [heq], by rw [heq]; decide, by simp [lindera_fts5_tokenizer_init, heq]⟩
  · by_cases hlt : api.libversion_number < 302000
    · have heq := init_eq_low_version api hlt
      exact ⟨by rw [heq], by rw [heq]; decide, by simp [lindera_fts5_tokenizer_init, heq]⟩
    · have heq := init_eq_version_bad api f hlt hp hb hf hfa hvv
      exact ⟨by rw [heq], by rw [heq]; decide, by simp [lindera_fts5_tokenizer_init, heq]⟩

/-- C5 witness: a host reporting version `100` (below the threshold);
initialization returns `SQLITE_MISUSE` and never registers. -/
theorem version_mismatch_misuse_no_registration_witness :
    ((⟨100, 0, 0, 0, 0, some ⟨2, 0⟩⟩ : HostApi).libversion_number < 302000 ∨
      ((⟨100, 0, 0, 0, 0, some ⟨2, 0⟩⟩ : HostApi).prepare_rc = SQLITE_OK ∧
        (⟨100, 0, 0, 0, 0, some ⟨2, 0⟩⟩ : HostApi).bind_rc = SQLITE_OK ∧
        (⟨100, 0, 0, 0, 0, some ⟨2, 0⟩⟩ : HostApi).finalize_rc = SQLITE_OK ∧
        ∃ f, (⟨100, 0, 0, 0, 0, some ⟨2, 0⟩⟩ : HostApi).fts5_api = some f ∧
          f.i_version ≠ FTS5_API_VERSION)) ∧
    (lindera_fts_tokenizer_internal_init false ⟨100, 0, 0, 0, 0, some ⟨2, 0⟩⟩).2 =
      .err SQLITE_MISUSE ∧
    HostCall.create_tokenizer ∉
      (lindera_fts_tokenizer_internal_init false ⟨100, 0, 0, 0, 0, some ⟨2, 0⟩⟩).1 ∧
    lindera_fts5_tokenizer_init false ⟨100, 0, 0, 0, 0, some ⟨2, 0⟩⟩ = SQLITE_MISUSE := by
  refine ⟨Or.inl (by decide), ?_⟩
  exact version_mismatch_misuse_no_registration ⟨100, 0, 0, 0, 0, some ⟨2, 0⟩⟩
    (Or.inl (by decide))

/-- C8: once the introspection statement has been successfully prepared,
the trace of host calls contains exactly one `finalize` on every exit
path (bind failure, finalize failure, null or mismatched FTS5 API, and
success alike); and a failing `prepare`, `bind_pointer` or `finalize`
makes initialization return that host status unchanged, with the
registration function never called. -/
theorem scoped_statement_finalized_once (api : HostApi)
    (hv : 302000 ≤ api.libversion_number) :
    (api.prepare_rc = SQLITE_OK →
      (lindera_fts_tokenizer_internal_init false api).1.count HostCall.finalize = 1) ∧
    (api.prepare_rc ≠ SQLITE_OK →
      (lindera_fts_tokenizer_internal_init false api).2 = .err api.prepare_rc ∧
      HostCall.create_tokenizer ∉ (lindera_fts_tokenizer_internal_init false api).1) ∧
    (api.prepare_rc = SQLITE_OK → api.bind_rc ≠ SQLITE_OK →
      (lindera_fts_tokenizer_internal_init false api).2 = .err api.bind_rc ∧
      HostCall.create_tokenizer ∉ (lindera_fts_tokenizer_internal_init false api).1) ∧
    (api.prepare_rc = SQLITE_OK → api.bind_rc = SQLITE_OK → api.finalize_rc ≠ SQLITE_OK →
      (lindera_fts_tokenizer_internal_init false api).2 = .err api.finalize_rc ∧
      HostCall.create_tokenizer ∉ (lindera_fts_tokenizer_internal_init false api).1) := by
  have hlt : ¬ api.libversion_number < 302000 := by omega
  refine ⟨?_, ?_, ?_, ?_⟩
  · intro hp
    by_cases hb : api.bind_rc = SQLITE_OK
    · by_cases hf : api.finalize_rc = SQLITE_OK
      · cases hfa : api.fts5_api with
        | none => rw [init_eq_null_api api hlt hp hb hf hfa]; decide
        | some f =>
          by_cases hvv : f.i_version = FTS5_API_VERSION
          · rw [init_eq_success api f hlt hp hb hf hfa hvv]; decide
          · rw [init_eq_version_bad api f hlt hp hb hf hfa hvv]; decide
      · rw [init_eq_finalize_fail api hlt hp hb hf]; rfl
    · rw [init_eq_bind_fail api hlt hp hb]; rfl
  · intro hp
    rw [init_eq_prepare_fail api hlt hp]
    exact ⟨rfl, by simp⟩
  · intro hp hb
    rw [init_eq_bind_fail api hlt hp hb]
    exact ⟨rfl, by simp⟩
  · intro hp hb hf
    rw [init_eq_finalize_fail api hlt hp hb hf]
    exact ⟨rfl, by simp⟩

/-- C8 witness: a host at version `302000` whose `bind_pointer` fails
with status `7`; after the successful prepare the statement is finalized
exactly once, the bind status is propagated unchanged, and registration
never happens. -/
theorem scoped_statement_finalized_once_witness :
    302000 ≤ (⟨302000, 0, 7, 0, 0, none⟩ : HostApi).libversion_number ∧
    (⟨302000, 0, 7, 0, 0, none⟩ : HostApi).prepare_rc = SQLITE_OK ∧
    (⟨302000, 0, 7, 0, 0, none⟩ : HostApi).bind_rc ≠ SQLITE_OK ∧
    (lindera_fts_tokenizer_internal_init false ⟨302000, 0, 7, 0, 0, none⟩).1.count
      HostCall.finalize = 1 ∧
    (lindera_fts_tokenizer_internal_init false ⟨302000, 0, 7, 0, 0, none⟩).2 =
      .err (⟨302000, 0, 7, 0, 0, none⟩ : HostApi).bind_rc ∧
    HostCall.create_tokenizer ∉
      (lindera_fts_tokenizer_internal_init false ⟨302000, 0, 7, 0, 0, none⟩).1 :=
  ⟨by decide, by decide, by decide,
    (scoped_statement_finalized_once ⟨302000, 0, 7, 0, 0, none⟩ (by decide)).1 (by decide),
    ((scoped_statement_finalized_once ⟨302000, 0, 7, 0, 0, none⟩ (by decide)).2.2.1
      (by decide) (by decide)).1,
    ((scoped_statement_finalized_once ⟨302000, 0, 7, 0, 0, none⟩ (by decide)).2.2.1
      (by decide) (by decide)).2⟩

/-- C10: once all validations succeed, `x_create_tokenizer` is invoked
exactly once but its status is discarded — `f.create_tokenizer_rc` is
universally quantified here and does not appear in the hypotheses, so
initialization returns `SQLITE_OK` even when the registration call
reports failure. -/
theorem registration_status_discarded (api : HostApi) (f : Fts5ApiVal)
    (hv : 302000 ≤ api.libversion_number) (hp : api.prepare_rc = SQLITE_OK)
    (hb : api.bind_rc = SQLITE_OK) (hf : api.finalize_rc = SQLITE_OK)
    (hfa : api.fts5_api = some f) (hvv : f.i_version = FTS5_API_VERSION) :
    lindera_fts5_tokenizer_init false api = SQLITE_OK ∧
    (lindera_fts_tokenizer_internal_init false api).1.count HostCall.create_tokenizer = 1 := by
  have hlt : ¬ api.libversion_number < 302000 := by omega
  have heq := init_eq_success api f hlt hp hb hf hfa hvv
  exact ⟨by simp [lindera_fts5_tokenizer_init, heq], by rw [heq]; decide⟩

/-- C10 witness: every validation succeeds but the registration call
itself reports the failing status `999`; initialization still returns
`SQLITE_OK` and the registration function was invoked exactly once. -/
theorem registration_status_discarded_witness :
    302000 ≤ (⟨3050000, 0, 0, 0, 0, some ⟨2, 999⟩⟩ : HostApi).libversion_number ∧
    (⟨2, 999⟩ : Fts5ApiVal).i_version = FTS5_API_VERSION ∧
    (⟨2, 999⟩ : Fts5ApiVal).create_tokenizer_rc ≠ SQLITE_OK ∧
    lindera_fts5_tokenizer_init false ⟨3050000, 0, 0, 0, 0, some ⟨2, 999⟩⟩ = SQLITE_OK ∧
    (lindera_fts_tokenizer_internal_init false
      ⟨3050000, 0, 0, 0, 0, some ⟨2, 999⟩⟩).1.count HostCall.create_tokenizer = 1 :=
  ⟨by decide, by decide, by decide,
    (registration_status_discarded ⟨3050000, 0, 0, 0, 0, some ⟨2, 999⟩⟩ ⟨2, 999⟩
      (by decide) (by decide) (by decide) (by decide) (by decide) (by decide)).1,
    (registration_status_discarded ⟨3050000, 0, 0, 0, 0, some ⟨2, 999⟩⟩ ⟨2, 999⟩
      (by decide) (by decide) (by decide) (by decide) (by decide) (by decide)).2⟩

/-! ## The emission loop -/

theorem emitTokens_all_ok (xToken : TokenFunction) :
    ∀ (tokens : List Token) (i0 : Nat),
      (∀ i (h : i < tokens.length),
        xToken (i0 + i) (mkCall (tokens.get ⟨i, h⟩)) = .ok SQLITE_OK) →
      emitTokens xToken i0 tokens = .ok (tokens.map mkCall, .ok ()) := by
  intro tokens
  induction tokens with
  | nil => intro i0 _; rfl
  | cons t rest ih =>
    intro i0 hcb
    have h0 : xToken i0 (mkCall t) = .ok SQLITE_OK := by
      have h := hcb 0 (by simp)
      simpa using h
    have hrest : emitTokens xToken (i0 + 1) rest = .ok (rest.map mkCall, .ok ()) := by
      apply ih
      intro i h
      have h' := hcb (i + 1) (by simpa using Nat.succ_lt_succ h)
      have harith : i0 + (i + 1) = i0 + 1 + i := by omega
      rw [harith] at h'
      simpa using h'
    simp [emitTokens, h0, hrest]

theorem emitTokens_stops (xToken : TokenFunction) (rc : Int) (hrc : rc ≠ SQLITE_OK) :
    ∀ (tokens : List Token) (j i0 : Nat) (hj : j < tokens.length),
      (∀ i (h : i < j),
        xToken (i0 + i) (mkCall (tokens.get ⟨i, h.trans hj⟩)) = .ok SQLITE_OK) →
      xToken (i0 + j) (mkCall (tokens.get ⟨j, hj⟩)) = .ok rc →
      emitTokens xToken i0 tokens = .ok ((tokens.take (j + 1)).map mkCall, .err rc) := by
  intro tokens
  induction tokens with
  | nil => intro j i0 hj; exact absurd hj (by simp)
  | cons t rest ih =>
    intro j i0 hj hprev hstop
    cases j with
    | zero =>
      have h0 : xToken i0 (mkCall t) = .ok rc := by simpa using hstop
      simp [emitTokens, h0, hrc]
    | succ j' =>
      have h0 : xToken i0 (mkCall t) = .ok SQLITE_OK := by
        have h := hprev 0 (Nat.succ_pos j')
        simpa using h
      have hj' : j' < rest.length := by
        simp only [List.length_cons] at hj
        omega
      have hrest : emitTokens xToken (i0 + 1) rest =
          .ok ((rest.take (j' + 1)).map mkCall, .err rc) := by
        apply ih j' (i0 + 1) hj'
        · intro i h
          have h' := hprev (i + 1) (Nat.succ_lt_succ h)
          have harith : i0 + (i + 1) = i0 + 1 + i := by omega
          rw [harith] at h'
          simpa using h'
        · have harith : i0 + (j' + 1) = i0 + 1 + j' := by omega
          rw [harith] at hstop
          simpa using hstop
      simp [emitTokens, h0, hrest, hrc]

/-- C3: when the host callback answers `SQLITE_OK` on the first `j`
emitted tokens and a non-`SQLITE_OK` status `rc` on the token of index
`j` (the `(j+1)`-th token), the bridge invokes the callback exactly
`j + 1` times — no later token is delivered — and the entry point
returns exactly `rc`. -/
theorem callback_rejection_stops_emission
    (analyzer : Analyzer) (xToken : TokenFunction) (buf : List Nat) (nText : Int)
    (tokens : List Token) (j : Nat) (rc : Int)
    (hpos : 0 < nText)
    (hval : utf8Valid (buf.take nText.toNat) = true)
    (hana : analyzer (buf.take nText.toNat) = .ok (.ok tokens))
    (hj : j < tokens.length)
    (hprev : ∀ i (h : i < j),
      xToken i (mkCall (tokens.get ⟨i, h.trans hj⟩)) = .ok SQLITE_OK)
    (hstop : xToken j (mkCall (tokens.get ⟨j, hj⟩)) = .ok rc)
    (hrc : rc ≠ SQLITE_OK) :
    lindera_fts5_tokenize_internal analyzer xToken buf nText =
      .ok ((tokens.take (j + 1)).map mkCall, .err rc) ∧
    ((tokens.take (j + 1)).map mkCall).length = j + 1 ∧
    lindera_fts5_tokenize analyzer xToken buf nText = rc := by
  have hne : ¬ nText ≤ 0 := by omega
  have hemit : emitTokens xToken 0 tokens =
      .ok ((tokens.take (j + 1)).map mkCall, .err rc) := by
    apply emitTokens_stops xToken rc hrc tokens j 0 hj
    · intro i h
      simpa using hprev i h
    · simpa using hstop
  have h1 : lindera_fts5_tokenize_internal analyzer xToken buf nText =
      .ok ((tokens.take (j + 1)).map mkCall, .err rc) := by
    simp [lindera_fts5_tokenize_internal, hne, hval, hana, hemit]
  refine ⟨h1, ?_, by simp [lindera_fts5_tokenize, h1]⟩
  simp only [List.length_map, List.length_take]
  omega

/-- C3 witness: one token, a callback answering `7` on the first call —
exactly one invocation happens and the bridge returns `7`. -/
theorem callback_rejection_stops_emission_witness :
    utf8Valid (([0x61] : List Nat).take (1 : Int).toNat) = true ∧
    (7 : Int) ≠ SQLITE_OK ∧
    ((([⟨[0x61], 0, 1⟩] : List Token).take (0 + 1)).map mkCall).length = 0 + 1 ∧
    lindera_fts5_tokenize (fun _ => .ok (.ok [⟨[0x61], 0, 1⟩])) (fun _ _ => .ok 7)
      [0x61] 1 = 7 := by
  have h := callback_rejection_stops_emission
    (fun _ => .ok (.ok [⟨[0x61], 0, 1⟩])) (fun _ _ => .ok 7) [0x61] 1
    [⟨[0x61], 0, 1⟩] 0 7 (by decide) (by decide) rfl (by decide)
    (fun i hi => absurd hi (Nat.not_lt_zero i)) rfl (by decide)
  exact ⟨by decide, by decide, h.2.1, h.2.2⟩

/-- C6: for a valid-UTF-8 input and an analyzer token sequence whose
spans lie inside the input (`byte_start ≤ byte_end ≤ length`) with
non-decreasing `byte_start`, when the callback accepts every token the
bridge invokes it once per token in the analyzer's order, passing
flags `0`, the surface bytes and surface byte length, and exactly the
analyzer-reported `byte_start`/`byte_end` (offsets into the original
input), and returns `SQLITE_OK`. -/
theorem tokens_emitted_in_order_with_reported_offsets
    (analyzer : Analyzer) (xToken : TokenFunction) (buf : List Nat) (nText : Int)
    (tokens : List Token)
    (hpos : 0 < nText) (hsize : nText < 2 ^ 31)
    (hval : utf8Valid (buf.take nText.toNat) = true)
    (hana : analyzer (buf.take nText.toNat) = .ok (.ok tokens))
    (hoff : ∀ t ∈ tokens,
      t.byte_start ≤ t.byte_end ∧ t.byte_end ≤ (buf.take nText.toNat).length)
    (_hmono : List.Pairwise (fun a b => a.byte_start ≤ b.byte_start) tokens)
    (hsurf : ∀ t ∈ tokens, t.surface.length < 2 ^ 31)
    (hcb : ∀ i (h : i < tokens.length),
      xToken i (mkCall (tokens.get ⟨i, h⟩)) = .ok SQLITE_OK) :
    lindera_fts5_tokenize_internal analyzer xToken buf nText =
      .ok (tokens.map specCall, .ok ()) ∧
    lindera_fts5_tokenize analyzer xToken buf nText = SQLITE_OK := by
  have hne : ¬ nText ≤ 0 := by omega
  have hemit : emitTokens xToken 0 tokens = .ok (tokens.map mkCall, .ok ()) := by
    apply emitTokens_all_ok xToken tokens 0
    intro i h
    simpa using hcb i h
  have h1 : lindera_fts5_tokenize_internal analyzer xToken buf nText =
      .ok (tokens.map mkCall, .ok ()) := by
    simp [lindera_fts5_tokenize_internal, hne, hval, hana, hemit]
  have hmap : tokens.map mkCall = tokens.map specCall := by
    apply List.map_congr_left
    intro t ht
    obtain ⟨ho1, ho2⟩ := hoff t ht
    have hlen : (buf.take nText.toNat).length < 2 ^ 31 := by
      have hle : (buf.take nText.toNat).length ≤ nText.toNat :=
        List.length_take_le nText.toNat buf
      omega
    have h2 : t.byte_end < 2 ^ 31 := by omega
    have h3 : t.byte_start < 2 ^ 31 := by omega
    simp [mkCall, specCall, usizeToCInt_of_lt _ (hsurf t ht), usizeToCInt_of_lt _ h2,
      usizeToCInt_of_lt _ h3]
  rw [hmap] at h1
  exact ⟨h1, by simp [lindera_fts5_tokenize, h1]⟩

/-- C6 witness: input `"ab"` with two single-byte tokens covering it; the
callback sees both tokens, in order, with flags `0` and the exact
analyzer-reported spans, and the bridge returns `SQLITE_OK`. -/
theorem tokens_emitted_in_order_with_reported_offsets_witness :
    (0 : Int) < 2 ∧
    utf8Valid (([0x61, 0x62] : List Nat).take (2 : Int).toNat) = true ∧
    (∀ t ∈ ([⟨[0x61], 0, 1⟩, ⟨[0x62], 1, 2⟩] : List Token),
      t.byte_start ≤ t.byte_end ∧
      t.byte_end ≤ (([0x61, 0x62] : List Nat).take (2 : Int).toNat).length) ∧
    List.Pairwise (fun a b => a.byte_start ≤ b.byte_start)
      ([⟨[0x61], 0, 1⟩, ⟨[0x62], 1, 2⟩] : List Token) ∧
    lindera_fts5_tokenize_internal (fun _ => .ok (.ok [⟨[0x61], 0, 1⟩, ⟨[0x62], 1, 2⟩]))
      (fun _ _ => .ok SQLITE_OK) [0x61, 0x62] 2 =
      .ok ([⟨0, [0x61], 1, 0, 1⟩, ⟨0, [0x62], 1, 1, 2⟩], .ok ()) ∧
    lindera_fts5_tokenize (fun _ => .ok (.ok [⟨[0x61], 0, 1⟩, ⟨[0x62], 1, 2⟩]))
      (fun _ _ => .ok SQLITE_OK) [0x61, 0x62] 2 = SQLITE_OK := by
  have h := tokens_emitted_in_order_with_reported_offsets
    (fun _ => .ok (.ok [⟨[0x61], 0, 1⟩, ⟨[0x62], 1, 2⟩])) (fun _ _ => .ok SQLITE_OK)
    [0x61, 0x62] 2 [⟨[0x61], 0, 1⟩, ⟨[0x62], 1, 2⟩]
    (by decide) (by decide) (by decide) rfl (by decide) (by decide) (by decide)
    (fun i h => rfl)
  exact ⟨by decide, by decide, by decide, by decide, h.1, h.2⟩
